import Mathlib

/-!
# Dynatrace service: metrics client and SLI retrieval

A shallow embedding of `internal/dynatrace/metrics_client.go` together with the
collaborators it calls, followed by the properties proved about it.

Go values are embedded as follows.

* A pair `(*T, error)` returned by a Go function is a pair
  `Option T × Option GoError`; `none` stands for `nil`.
* Calls that leave the process (the timeframe delay, the HTTP client, the JSON
  decoder) are fields of a record that the embedded functions take as an argument.
* Instants are nanoseconds since the Unix epoch, durations are nanoseconds.
-/

namespace DynatraceService

/-! ## Errors -/

/-- The Go `error` values the metrics client handles: the two error types declared in
`metrics_client.go`, and `foreign` for every error value created elsewhere (by the
timeframe delay, the HTTP client, the JSON decoder or `fmt.Errorf`), known by its
`Error()` text. -/
inductive GoError where
  | foreign (text : String)
  | MetricsQueryFailedError (cause : GoError)
  | MetricsQueryProcessingError (Message : String) (Warnings : List String)
deriving DecidableEq, Repr

/-- Embedding of `strings.Join`. -/
def stringsJoin (elems : List String) (sep : String) : String :=
  sep.intercalate elems

/-- Embedding of the `Error()` methods: `MetricsQueryFailedError.Error` formats
`"error querying Metrics API v2: %v"` with the cause, `MetricsQueryProcessingError.Error`
appends the warnings when there are any. -/
def GoError.Error : GoError → String
  | .foreign text => text
  | .MetricsQueryFailedError cause => "error querying Metrics API v2: " ++ cause.Error
  | .MetricsQueryProcessingError Message Warnings =>
      if Warnings.length > 0 then
        Message ++ ". Warnings: " ++ stringsJoin Warnings ", "
      else
        Message

/-- Embedding of `Unwrap()`: only `MetricsQueryFailedError` declares it. -/
def GoError.Unwrap : GoError → Option GoError
  | .MetricsQueryFailedError cause => some cause
  | _ => none

/-- Whether the dynamic type of the error is `*MetricsQueryFailedError`. -/
def GoError.isMetricsQueryFailedError : GoError → Bool
  | .MetricsQueryFailedError _ => true
  | _ => false

/-- Whether the dynamic type of the error is `*MetricsQueryProcessingError`. -/
def GoError.isMetricsQueryProcessingError : GoError → Bool
  | .MetricsQueryProcessingError _ _ => true
  | _ => false

/-! ## Time -/

/-- An instant (`time.Time`), as nanoseconds since the Unix epoch. -/
abbrev Time := Int

/-- A length of time (`time.Duration`), in nanoseconds. -/
abbrev Duration := Nat

/-- The constant `time.Millisecond`. -/
def Millisecond : Duration := 1000000

/-- The constant `time.Second`. -/
def Second : Duration := 1000 * Millisecond

/-- The constant `time.Minute`. -/
def Minute : Duration := 60 * Second

/-- Modelled from the spec: `common.Timeframe` is declared outside the given sources;
the spec describes it as an immutable pair (start, end) of instants read through
`Start()` and `End()`. -/
structure Timeframe where
  startTime : Time
  endTime : Time
deriving DecidableEq, Repr

/-- The accessor `Start()`. -/
def Timeframe.Start (t : Timeframe) : Time := t.startTime

/-- The accessor `End()`. -/
def Timeframe.End (t : Timeframe) : Time := t.endTime

/-- The number of whole milliseconds from the Unix epoch to the instant. -/
def UnixMilli (t : Time) : Int := t / 1000000

/-- Modelled from the spec: `common.TimestampToUnixMillisecondsString` is declared
outside the given sources; the spec calls its result the millisecond-epoch
representation of the instant, here written in decimal. -/
def TimestampToUnixMillisecondsString (t : Time) : String :=
  toString (UnixMilli t)

/-! ## Requests -/

/-- The constant `MetricsPath`. -/
def MetricsPath : String := "/api/v2/metrics"

/-- The constant `MetricsQueryPath`. -/
def MetricsQueryPath : String := MetricsPath ++ "/query"

/-- The constant `MetricsRequiredDelay`. -/
def MetricsRequiredDelay : Duration := 2 * Minute

/-- The constant `MetricsMaximumWait`. -/
def MetricsMaximumWait : Duration := 4 * Minute

def fromKey : String := "from"
def toKey : String := "to"
def metricSelectorKey : String := "metricSelector"
def resolutionKey : String := "resolution"
def entitySelectorKey : String := "entitySelector"
def mzSelectorKey : String := "mzSelector"

/-- Modelled from the spec: `metrics.Query` is declared outside the given sources; the
spec describes it as a metric selector, optional entity and management-zone filters
and a resolution hint. An absent filter is the empty string, as the getters are
compared with `""` in `RequestString`. -/
structure Query where
  metricSelector : String
  entitySelector : String
  mzSelector : String
  resolution : String
deriving DecidableEq, Repr

def Query.GetMetricSelector (q : Query) : String := q.metricSelector
def Query.GetEntitySelector (q : Query) : String := q.entitySelector
def Query.GetMZSelector (q : Query) : String := q.mzSelector
def Query.GetResolution (q : Query) : String := q.resolution

/-- Embedding of `MetricsClientQueryRequest`. -/
structure MetricsClientQueryRequest where
  query : Query
  timeframe : Timeframe
deriving DecidableEq, Repr

/-- Embedding of `NewMetricsClientQueryRequest`. -/
def NewMetricsClientQueryRequest (query : Query) (timeframe : Timeframe) :
    MetricsClientQueryRequest :=
  { query := query, timeframe := timeframe }

/-- Modelled from the spec: the type `queryParameters` (with `newQueryParameters`, `add`
and `encode`) is declared outside the given sources. It is kept as the record of the
`add` calls made on it, in call order; `encode` is an argument of `RequestString`. -/
abbrev queryParameters := List (String × String)

/-- The empty parameter record. -/
def newQueryParameters : queryParameters := []

/-- One `add(key, value)` call. -/
def queryParameters.add (p : queryParameters) (key value : String) : queryParameters :=
  p ++ [(key, value)]

/-- The value of the local variable `queryParameters` of `RequestString` when `encode`
is called on it: the four unconditional `add` calls and the two guarded ones. -/
def MetricsClientQueryRequest.requestParameters (q : MetricsClientQueryRequest) :
    queryParameters :=
  let p := newQueryParameters
  let p := p.add metricSelectorKey q.query.GetMetricSelector
  let p := p.add fromKey (TimestampToUnixMillisecondsString q.timeframe.Start)
  let p := p.add toKey (TimestampToUnixMillisecondsString q.timeframe.End)
  let p := p.add resolutionKey q.query.GetResolution
  let p := if q.query.GetEntitySelector ≠ "" then
      p.add entitySelectorKey q.query.GetEntitySelector
    else p
  let p := if q.query.GetMZSelector ≠ "" then
      p.add mzSelectorKey q.query.GetMZSelector
    else p
  p

/-- Embedding of `MetricsClientQueryRequest.RequestString`. -/
def MetricsClientQueryRequest.RequestString (encode : queryParameters → String)
    (q : MetricsClientQueryRequest) : String :=
  MetricsQueryPath ++ "?" ++ encode q.requestParameters

/-! ## Responses -/

/-- Embedding of `MetricSeries`. -/
structure MetricSeries where
  Dimensions : List String
  DimensionMap : List (String × String)
  Timestamps : List Int
  Values : List (Option Float)

/-- Embedding of `MetricSeriesCollection`. -/
structure MetricSeriesCollection where
  MetricID : String
  Data : List MetricSeries
  Warnings : List String

/-- Embedding of `MetricData`. -/
structure MetricData where
  Result : List MetricSeriesCollection

/-! ## The metrics client -/

/-- Embedding of `ClientInterface`, of which the metrics client uses `Get`. -/
structure ClientInterface where
  Get : String → Except GoError String

/-- Embedding of `MetricsClient`. -/
structure MetricsClient where
  client : ClientInterface

/-- The calls of `getMetricDataByQuery` that are neither methods of the client nor
defined in `metrics_client.go`: `NewTimeframeDelay(timeframe, delay, wait).Wait(ctx)`,
`json.Unmarshal` into a `MetricData`, and the `encode` method of `queryParameters`. -/
structure Runtime where
  Wait : Timeframe → Duration → Duration → Option GoError
  Unmarshal : String → Except GoError MetricData
  encode : queryParameters → String

/-- Embedding of `MetricsClient.getMetricDataByQuery`. -/
def MetricsClient.getMetricDataByQuery (rt : Runtime) (mc : MetricsClient)
    (request : MetricsClientQueryRequest) : Option MetricData × Option GoError :=
  match rt.Wait request.timeframe MetricsRequiredDelay MetricsMaximumWait with
  | some err => (none, some err)
  | none =>
    match mc.client.Get (request.RequestString rt.encode) with
    | .error err => (none, some err)
    | .ok body =>
      match rt.Unmarshal body with
      | .error err => (none, some err)
      | .ok result => (some result, none)

/-- Embedding of `fmt.Sprintf("Metrics API v2 returned %d metric series collections", n)`. -/
def collectionsCountMessage (n : Nat) : String :=
  "Metrics API v2 returned " ++ Nat.repr n ++ " metric series collections"

/-- Embedding of `MetricsClient.GetSingleMetricSeriesCollectionByQuery`. -/
def MetricsClient.GetSingleMetricSeriesCollectionByQuery (rt : Runtime) (mc : MetricsClient)
    (request : MetricsClientQueryRequest) : Option MetricSeriesCollection × Option GoError :=
  match mc.getMetricDataByQuery rt request with
  | (_, some err) => (none, some (.MetricsQueryFailedError err))
  | (none, none) => (none, none) -- not returned by `getMetricDataByQuery`
  | (some metricData, none) =>
    if metricData.Result.length = 0 then
      (none, some (.MetricsQueryProcessingError
        "Metrics API v2 returned zero metric series collections" []))
    else if metricData.Result.length > 1 then
      (none, some (.MetricsQueryProcessingError
        (collectionsCountMessage metricData.Result.length) []))
    else
      match metricData.Result with
      | [] => (none, none) -- excluded by the two length checks
      | metricSeriesCollection :: _ =>
        if metricSeriesCollection.Data.length = 0 then
          (none, some (.MetricsQueryProcessingError
            "Metrics API v2 returned zero metric series" metricSeriesCollection.Warnings))
        else
          (some metricSeriesCollection, none)

/-! ## The timeframe delay -/

/-- Modelled from the spec: `TimeframeDelay` (with `NewTimeframeDelay` and `Wait`) is
declared outside the given sources. The spec gives it a timeframe, a required delay and
a maximum wait; a delay and a wait are lengths of time, so neither is negative. -/
structure TimeframeDelay where
  timeframe : Timeframe
  requiredDelay : Duration
  maximumWait : Duration
deriving DecidableEq, Repr

/-- Modelled from the spec: the constructor `NewTimeframeDelay`, declared outside the
given sources. -/
def NewTimeframeDelay (timeframe : Timeframe) (requiredDelay maximumWait : Duration) :
    TimeframeDelay :=
  { timeframe := timeframe, requiredDelay := requiredDelay, maximumWait := maximumWait }

/-- The two ways in which `Wait` fails according to the spec. -/
inductive WaitError where
  | TimingExceeded
  | Canceled
deriving DecidableEq, Repr

/-- What a call of `Wait` yields: its error, if any, and the instant at which it
returns. A call returns immediately when it returns at the instant it was made. -/
structure WaitResult where
  err : Option WaitError
  returnedAt : Time
deriving DecidableEq, Repr

/-- The instant from which a query over the timeframe may be issued:
`timeframe.End() + requiredDelay`. -/
def TimeframeDelay.readyAt (t : TimeframeDelay) : Time :=
  t.timeframe.End + (t.requiredDelay : Int)

/-- Modelled from the spec: `TimeframeDelay.Wait`, declared outside the given sources.
Called at instant `now` under a context that is cancelled at `cancelAt` (never, when
`none`): it fails with `TimingExceeded` when `End + requiredDelay > now + maximumWait`;
otherwise it returns at once when `now ≥ End + requiredDelay`; otherwise it blocks
until that instant, unless the cancellation comes first, which ends it with `Canceled`. -/
def TimeframeDelay.Wait (t : TimeframeDelay) (now : Time) (cancelAt : Option Time) :
    WaitResult :=
  if t.readyAt > now + (t.maximumWait : Int) then
    { err := some .TimingExceeded, returnedAt := now }
  else if now ≥ t.readyAt then
    { err := none, returnedAt := now }
  else
    match cancelAt with
    | none => { err := none, returnedAt := t.readyAt }
    | some c =>
      if c < t.readyAt then
        { err := some .Canceled, returnedAt := max now c }
      else
        { err := none, returnedAt := t.readyAt }

/-! ## Dashboard-based SLI retrieval -/

/-- Modelled from the spec: the SLI result, declared outside the given sources: SLI name,
optional numeric value (absent on retrieval failure), success flag and message (empty
on success). -/
structure SLIResult where
  Metric : String
  Value : Option Float
  Success : Bool
  Message : String

/-- Modelled from the spec: the SLO definition generated for an SLI, declared outside the
given sources: SLI name, pass and warning criteria, weight and key flag. -/
structure SLODefinition where
  SLI : String
  Pass : List String
  Warning : List String
  Weight : Int
  KeySLI : Bool

/-- What resolving one SLI source of a dashboard yields: a failed result, or a named
query together with the SLO definition generated for it, if any. -/
inductive Resolution where
  | failed (result : SLIResult)
  | resolved (name : String) (query : Query) (slo : Option SLODefinition)

/-- Modelled from the spec: a dashboard tile, declared outside the given sources: a metric
chart tile, an SLO tile carrying the IDs of the SLOs it references, or any other tile.
The name of a tile is the SLI name derived from its title. -/
inductive DashboardTile where
  | metricChartTile (name : String) (query : Query)
  | sloTile (name : String) (sloIDs : List String)
  | other

/-- The parts of dashboard resolution and of SLI retrieval that the spec leaves to
other components: resolving a metric chart tile, resolving one referenced SLO ID of
an SLO tile (blank, unknown or found), and fetching the value of a query. -/
structure DashboardBackend where
  resolveMetricChartTile : String → Query → List Resolution
  resolveSLO : String → String → Resolution
  fetchValue : Query → Except String Float

/-- The message of the failed result of an SLO tile that references no SLO. -/
def noSLOIDsMessage : String := "SLO tile contains no SLO IDs"

/-- Modelled from the spec: resolution of one tile, declared outside the given sources.
An SLO tile with an empty ID list yields one failed result named after the tile; any
other SLO tile yields one resolution per referenced ID; other tiles are skipped. -/
def resolveTile (b : DashboardBackend) : DashboardTile → List Resolution
  | .metricChartTile name query => b.resolveMetricChartTile name query
  | .sloTile name [] =>
      [.failed { Metric := name, Value := none, Success := false, Message := noSLOIDsMessage }]
  | .sloTile name (id :: ids) => (id :: ids).map (b.resolveSLO name)
  | .other => []

/-- Modelled from the spec: dashboard resolution, declared outside the given sources:
the tiles are resolved one by one in their stored order, and a failure of one tile
does not end the iteration. -/
def Resolve (b : DashboardBackend) (tiles : List DashboardTile) : List Resolution :=
  tiles.flatMap (resolveTile b)

/-- The SLI result of one resolution: a failed resolution is passed on, a resolved
query is fetched and its error, if any, becomes the message of a failed result. -/
def Resolution.toSLIResult (b : DashboardBackend) : Resolution → SLIResult
  | .failed result => result
  | .resolved name query _ =>
      match b.fetchValue query with
      | .ok value => { Metric := name, Value := some value, Success := true, Message := "" }
      | .error message => { Metric := name, Value := none, Success := false, Message := message }

/-- The SLO definition a resolution contributes, if any. -/
def Resolution.slo : Resolution → Option SLODefinition
  | .failed _ => none
  | .resolved _ _ slo => slo

/-- The SLO definitions generated by a list of resolutions, in order. -/
def generatedSLOs (rs : List Resolution) : List SLODefinition :=
  rs.filterMap Resolution.slo

/-- Modelled from the spec: the outcome of an evaluation, declared outside the given
sources: the SLI results in resolution order and the optional set of generated SLO
definitions, absent when none was generated (nothing is uploaded then). -/
structure EvaluationOutcome where
  results : List SLIResult
  slos : Option (List SLODefinition)

/-- Modelled from the spec: dashboard-based SLI retrieval, declared outside the given
sources: the dashboard is resolved, every resolution becomes one SLI result, and the
generated SLO definitions are collected. -/
def retrieveFromDashboard (b : DashboardBackend) (tiles : List DashboardTile) :
    EvaluationOutcome :=
  let rs := Resolve b tiles
  { results := rs.map (Resolution.toSLIResult b)
    slos := if (generatedSLOs rs).isEmpty then none else some (generatedSLOs rs) }

/-! ## Dashboard retrieval -/

/-- The event data a retrieval is created with: the fields of `test.EventData` set by
`createKeptnEvent` in the retrieval test. -/
structure EventData where
  Project : String
  Stage : String
  Service : String
deriving DecidableEq, Repr

/-- The dashboard document returned by a retrieval: its tiles, in stored order. -/
structure Dashboard where
  tiles : List DashboardTile

/-- Modelled from the spec: the errors of dashboard retrieval, declared outside the given
sources. The spec names the invalid dashboard reference and requires that it can be
told apart from a dashboard that the backend does not have. -/
inductive RetrieveError where
  | InvalidDashboardReference
  | DashboardNotFound (dashboardID : String)
deriving DecidableEq, Repr

/-- The text of a retrieval error. Of the text of an invalid reference the retrieval test
fixes the phrase "invalid 'dashboard'". -/
def RetrieveError.Error : RetrieveError → String
  | .InvalidDashboardReference => "invalid 'dashboard' property: no dashboard ID"
  | .DashboardNotFound dashboardID => "dashboard " ++ dashboardID ++ " not found"

/-- Modelled from the spec: `Retrieval` (built by `NewRetrieval` from a client and the
event data) is declared outside the given sources. Of the client it keeps the fetch of
a dashboard document by ID, `none` standing for a backend 404, and the check that an
ID is malformed, which the spec does not detail. -/
structure Retrieval where
  getDashboard : String → Option Dashboard
  malformed : String → Bool
  eventData : EventData

/-- Modelled from the spec: `Retrieval.Retrieve`, declared outside the given sources; the
given test calls it as `dashboardJSON, dashboard, err := dh.Retrieve(ctx, id)`. An
empty or malformed ID fails with the invalid reference before anything is fetched; an
ID unknown to the backend fails with not found; otherwise the document and its ID are
returned. -/
def Retrieval.Retrieve (r : Retrieval) (dashboardID : String) :
    Option Dashboard × String × Option RetrieveError :=
  if dashboardID = "" ∨ r.malformed dashboardID = true then
    (none, "", some .InvalidDashboardReference)
  else
    match r.getDashboard dashboardID with
    | none => (none, "", some (.DashboardNotFound dashboardID))
    | some dashboardJSON => (some dashboardJSON, dashboardID, none)

/-! ## Monitoring configuration -/

/-- A task sequence of a stage (`keptnv2.Sequence`), of which the name is read. -/
structure Sequence where
  Name : String
deriving DecidableEq, Repr

/-- A stage of a shipyard (`keptnv2.Stage`): its name and its task sequences. -/
structure Stage where
  Name : String
  Sequences : List Sequence
deriving DecidableEq, Repr

/-- The `Spec` field of a shipyard, of which the stages are read. -/
structure ShipyardSpec where
  Stages : List Stage
deriving DecidableEq, Repr

/-- A shipyard (`keptnv2.Shipyard`). -/
structure Shipyard where
  Spec : ShipyardSpec
deriving DecidableEq, Repr

/-- A service as returned by `GetAllServices`, of which the name is read. -/
structure Service where
  ServiceName : String
deriving DecidableEq, Repr

/-- Embedding of `dynatrace.ConfiguredEntities`, as `ConfigureMonitoring` fills it. The
type `ConfigResult` is declared outside the given sources and is a parameter. -/
structure ConfiguredEntities (ConfigResult : Type) where
  TaggingRulesEnabled : Bool
  TaggingRules : List ConfigResult
  ProblemNotificationsEnabled : Bool
  ProblemNotifications : ConfigResult
  ManagementZonesEnabled : Bool
  ManagementZones : List ConfigResult
  DashboardEnabled : Bool
  Dashboard : ConfigResult
  MetricEventsEnabled : Bool
  MetricEvents : List ConfigResult
deriving DecidableEq, Repr

/-- What `ConfigureMonitoring` obtains from outside `configuration.go`: the five
generation flags of package `lib`, the zero value `dynatrace.ConfigResult{}`, the
results of the creation steps, and `GetAllServices` of the service handler. -/
structure MonitoringEnvironment (ConfigResult : Type) where
  IsTaggingRulesGenerationEnabled : Bool
  IsProblemNotificationsGenerationEnabled : Bool
  IsManagementZonesGenerationEnabled : Bool
  IsDashboardsGenerationEnabled : Bool
  IsMetricEventsGenerationEnabled : Bool
  zeroConfigResult : ConfigResult
  AutoTagCreate : List ConfigResult
  ProblemNotificationCreate : ConfigResult
  ManagementZoneCreateFor : String → Shipyard → List ConfigResult
  DashboardCreateFor : String → Shipyard → ConfigResult
  MetricEventCreateFor : String → String → String → List ConfigResult
  GetAllServices : String → String → Except GoError (List Service)

/-- Embedding of the loop of `shouldCreateMetricEvents` over the task sequences. -/
def hasRemediationSequence : List Sequence → Bool
  | [] => false
  | taskSequence :: rest =>
    if taskSequence.Name = "remediation" then true else hasRemediationSequence rest

/-- Embedding of `shouldCreateMetricEvents`. -/
def shouldCreateMetricEvents (stage : Stage) : Bool :=
  hasRemediationSequence stage.Sequences

/-- The inner loop of `ConfigureMonitoring` over the services of one stage: the metric
events created for each service are appended to those collected so far. -/
def appendMetricEvents {ConfigResult : Type} (env : MonitoringEnvironment ConfigResult)
    (project stageName : String) :
    List Service → List ConfigResult → List ConfigResult
  | [], metricEvents => metricEvents
  | service :: rest, metricEvents =>
    appendMetricEvents env project stageName rest
      (metricEvents ++ env.MetricEventCreateFor project stageName service.ServiceName)

/-- The loop of `ConfigureMonitoring` over the stages, from the metric events collected
so far: it ends with the error of the `return nil, fmt.Errorf(...)` inside it, or with
the metric events collected when all stages are done. -/
def collectMetricEvents {ConfigResult : Type} (env : MonitoringEnvironment ConfigResult)
    (project : String) :
    List Stage → List ConfigResult → Except GoError (List ConfigResult)
  | [], metricEvents => .ok metricEvents
  | stage :: rest, metricEvents =>
    if shouldCreateMetricEvents stage = true then
      match env.GetAllServices project stage.Name with
      | .error err =>
        .error (.foreign ("failed to retrieve services of project " ++ project ++ ": "
          ++ err.Error))
      | .ok services =>
        collectMetricEvents env project rest
          (appendMetricEvents env project stage.Name services metricEvents)
    else
      collectMetricEvents env project rest metricEvents

/-- Embedding of `Configuration.ConfigureMonitoring`; a nil shipyard is `none`. -/
def ConfigureMonitoring {ConfigResult : Type} (env : MonitoringEnvironment ConfigResult)
    (project : String) (shipyard : Option Shipyard) :
    Option (ConfiguredEntities ConfigResult) × Option GoError :=
  let configuredEntities : ConfiguredEntities ConfigResult :=
    { TaggingRulesEnabled := env.IsTaggingRulesGenerationEnabled
      TaggingRules := env.AutoTagCreate
      ProblemNotificationsEnabled := env.IsProblemNotificationsGenerationEnabled
      ProblemNotifications := env.ProblemNotificationCreate
      ManagementZonesEnabled := env.IsManagementZonesGenerationEnabled
      ManagementZones := []
      DashboardEnabled := env.IsDashboardsGenerationEnabled
      Dashboard := env.zeroConfigResult
      MetricEventsEnabled := env.IsMetricEventsGenerationEnabled
      MetricEvents := [] }
  match shipyard with
  | none => (some configuredEntities, none)
  | some shipyard =>
    if project ≠ "" then
      let configuredEntities :=
        { configuredEntities with
          ManagementZones := env.ManagementZoneCreateFor project shipyard
          Dashboard := env.DashboardCreateFor project shipyard }
      match collectMetricEvents env project shipyard.Spec.Stages [] with
      | .error err => (none, some err)
      | .ok metricEvents =>
        (some { configuredEntities with MetricEvents := metricEvents }, none)
    else
      (some configuredEntities, none)

/-! ## Concrete inputs -/

/-- A runtime whose timeframe delay answers `wait` and whose decoder answers `decoded`,
whatever they are called with; parameters are encoded as `key=value` joined by `&`. -/
def stubRuntime (wait : Option GoError) (decoded : Except GoError MetricData) : Runtime :=
  { Wait := fun _ _ _ => wait
    Unmarshal := fun _ => decoded
    encode := fun p => "&".intercalate (p.map (fun kv => kv.1 ++ "=" ++ kv.2)) }

/-- A metrics client whose `Get` answers `response` to every request. -/
def stubClient (response : Except GoError String) : MetricsClient :=
  { client := { Get := fun _ => response } }

/-- A request for one metric over a timeframe of one second, without filters. -/
def sampleRequest : MetricsClientQueryRequest :=
  NewMetricsClientQueryRequest
    { metricSelector := "builtin:service.response.time", entitySelector := "",
      mzSelector := "", resolution := "Inf" }
    { startTime := 1000000000, endTime := 2000000000 }

/-- A series without data points. -/
def emptySeries : MetricSeries :=
  { Dimensions := [], DimensionMap := [], Timestamps := [], Values := [] }

/-- A collection holding one series. -/
def oneSeriesCollection : MetricSeriesCollection :=
  { MetricID := "builtin:service.response.time", Data := [emptySeries], Warnings := [] }

/-- A collection holding two series. -/
def twoSeriesCollection : MetricSeriesCollection :=
  { MetricID := "builtin:service.response.time", Data := [emptySeries, emptySeries],
    Warnings := [] }

/-- A collection holding no series, with two warnings. -/
def noSeriesCollection : MetricSeriesCollection :=
  { MetricID := "builtin:service.response.time", Data := [],
    Warnings := ["first warning", "second warning"] }

/-- A runtime whose delay has elapsed and whose decoder yields the given collections. -/
def sampleRuntime (result : List MetricSeriesCollection) : Runtime :=
  stubRuntime none (.ok { Result := result })

/-- A client that answers every request with an (unread) body. -/
def sampleClient : MetricsClient := stubClient (.ok "body")

/-- The error of a timeframe delay that would take too long. -/
def timingError : GoError := .foreign "timing exceeded"

/-- The error of a failed HTTP call. -/
def transportError : GoError := .foreign "connection refused"

/-- A timeframe that ended at the first second after the epoch. -/
def sampleTimeframe : Timeframe := { startTime := 0, endTime := 1000000000 }

/-- The event data of the retrieval test. -/
def sampleEventData : EventData :=
  { Project := "qualitygate", Stage := "qualitystage", Service := "evalservice" }

/-- A retrieval whose backend has no dashboard and that takes no ID for malformed. -/
def emptyStoreRetrieval : Retrieval :=
  { getDashboard := fun _ => none, malformed := fun _ => false, eventData := sampleEventData }

/-- A shipyard with a single stage that has a remediation sequence. -/
def remediationShipyard : Shipyard :=
  { Spec := { Stages := [{ Name := "production", Sequences := [{ Name := "remediation" }] }] } }

/-- An environment, with texts for configuration results, in which every creation step
yields a result and `GetAllServices` fails for every stage. -/
def failingServicesEnvironment : MonitoringEnvironment String :=
  { IsTaggingRulesGenerationEnabled := true
    IsProblemNotificationsGenerationEnabled := true
    IsManagementZonesGenerationEnabled := true
    IsDashboardsGenerationEnabled := true
    IsMetricEventsGenerationEnabled := true
    zeroConfigResult := ""
    AutoTagCreate := ["tagging rule created"]
    ProblemNotificationCreate := "problem notification created"
    ManagementZoneCreateFor := fun _ _ => ["management zone created"]
    DashboardCreateFor := fun _ _ => "dashboard created"
    MetricEventCreateFor := fun _ _ service => ["metric event created for " ++ service]
    GetAllServices := fun _ _ => .error transportError }

/-- The same environment, except that every stage has the one service `carts`. -/
def oneServiceEnvironment : MonitoringEnvironment String :=
  { failingServicesEnvironment with
    GetAllServices := fun _ _ => .ok [{ ServiceName := "carts" }] }

/-! ## Properties of the metrics client -/

/-- A wrapped error differs from the error it wraps. -/
theorem GoError.MetricsQueryFailedError_ne (e : GoError) :
    GoError.MetricsQueryFailedError e ≠ e := by
  induction e with
  | foreign text => simp
  | MetricsQueryFailedError cause ih => simpa using ih
  | MetricsQueryProcessingError Message Warnings => simp

/-- When the wait, the call and the decoding succeed, `getMetricDataByQuery` returns the
decoded response. -/
theorem getMetricDataByQuery_decoded (rt : Runtime) (mc : MetricsClient)
    (request : MetricsClientQueryRequest) (body : String) (metricData : MetricData)
    (hWait : rt.Wait request.timeframe MetricsRequiredDelay MetricsMaximumWait = none)
    (hGet : mc.client.Get (request.RequestString rt.encode) = .ok body)
    (hDecode : rt.Unmarshal body = .ok metricData) :
    mc.getMetricDataByQuery rt request = (some metricData, none) := by
  simp [MetricsClient.getMetricDataByQuery, hWait, hGet, hDecode]

/-- When `getMetricDataByQuery` fails, the error is wrapped. -/
theorem GetSingle_of_failed (rt : Runtime) (mc : MetricsClient)
    (request : MetricsClientQueryRequest) (err : GoError)
    (h : mc.getMetricDataByQuery rt request = (none, some err)) :
    mc.GetSingleMetricSeriesCollectionByQuery rt request
      = (none, some (.MetricsQueryFailedError err)) := by
  simp [MetricsClient.GetSingleMetricSeriesCollectionByQuery, h]

/-- The result on a decoded response without collections. -/
theorem GetSingle_of_nil (rt : Runtime) (mc : MetricsClient)
    (request : MetricsClientQueryRequest) (metricData : MetricData)
    (h : mc.getMetricDataByQuery rt request = (some metricData, none))
    (hr : metricData.Result = []) :
    mc.GetSingleMetricSeriesCollectionByQuery rt request
      = (none, some (.MetricsQueryProcessingError
          "Metrics API v2 returned zero metric series collections" [])) := by
  simp [MetricsClient.GetSingleMetricSeriesCollectionByQuery, h, hr]

/-- The result on a decoded response with several collections. -/
theorem GetSingle_of_many (rt : Runtime) (mc : MetricsClient)
    (request : MetricsClientQueryRequest) (metricData : MetricData)
    (h : mc.getMetricDataByQuery rt request = (some metricData, none))
    (hr : 1 < metricData.Result.length) :
    mc.GetSingleMetricSeriesCollectionByQuery rt request
      = (none, some (.MetricsQueryProcessingError
          (collectionsCountMessage metricData.Result.length) [])) := by
  have h0 : metricData.Result.length ≠ 0 := by omega
  have h0' : metricData.Result ≠ [] := by
    intro hnil
    simp [hnil] at hr
  simp [MetricsClient.GetSingleMetricSeriesCollectionByQuery, h, hr, h0']

/-- The result on a decoded response with one collection without series. -/
theorem GetSingle_of_single_empty (rt : Runtime) (mc : MetricsClient)
    (request : MetricsClientQueryRequest) (metricData : MetricData)
    (c : MetricSeriesCollection)
    (h : mc.getMetricDataByQuery rt request = (some metricData, none))
    (hr : metricData.Result = [c]) (hc : c.Data = []) :
    mc.GetSingleMetricSeriesCollectionByQuery rt request
      = (none, some (.MetricsQueryProcessingError
          "Metrics API v2 returned zero metric series" c.Warnings)) := by
  simp [MetricsClient.GetSingleMetricSeriesCollectionByQuery, h, hr, hc]

/-- The result on a decoded response with one collection with series. -/
theorem GetSingle_of_single_nonempty (rt : Runtime) (mc : MetricsClient)
    (request : MetricsClientQueryRequest) (metricData : MetricData)
    (c : MetricSeriesCollection)
    (h : mc.getMetricDataByQuery rt request = (some metricData, none))
    (hr : metricData.Result = [c]) (hc : c.Data ≠ []) :
    mc.GetSingleMetricSeriesCollectionByQuery rt request = (some c, none) := by
  simp [MetricsClient.GetSingleMetricSeriesCollectionByQuery, h, hr, hc]

/-- C1: on a response decoded without a fetch error, the call returns a collection with
a nil error exactly when the result list holds one collection and that collection has
at least one series; the returned collection is then that collection unchanged, and
in every other case the collection is nil and the error is not. -/
theorem GetSingleMetricSeriesCollectionByQuery_success_iff (rt : Runtime)
    (mc : MetricsClient) (request : MetricsClientQueryRequest) (body : String)
    (metricData : MetricData)
    (hWait : rt.Wait request.timeframe MetricsRequiredDelay MetricsMaximumWait = none)
    (hGet : mc.client.Get (request.RequestString rt.encode) = .ok body)
    (hDecode : rt.Unmarshal body = .ok metricData) :
    ((∃ c, mc.GetSingleMetricSeriesCollectionByQuery rt request = (some c, none))
        ↔ ∃ c, metricData.Result = [c] ∧ 1 ≤ c.Data.length) ∧
    (∀ c, metricData.Result = [c] → 1 ≤ c.Data.length →
        mc.GetSingleMetricSeriesCollectionByQuery rt request = (some c, none)) ∧
    ((¬ ∃ c, metricData.Result = [c] ∧ 1 ≤ c.Data.length) →
        (mc.GetSingleMetricSeriesCollectionByQuery rt request).1 = none ∧
        (mc.GetSingleMetricSeriesCollectionByQuery rt request).2 ≠ none) := by
  have h := getMetricDataByQuery_decoded rt mc request body metricData hWait hGet hDecode
  have hgood : ∀ c, metricData.Result = [c] → 1 ≤ c.Data.length →
      mc.GetSingleMetricSeriesCollectionByQuery rt request = (some c, none) := by
    intro c hr hc
    apply GetSingle_of_single_nonempty rt mc request metricData c h hr
    intro hnil
    simp [hnil] at hc
  have hbad : (¬ ∃ c, metricData.Result = [c] ∧ 1 ≤ c.Data.length) →
      (mc.GetSingleMetricSeriesCollectionByQuery rt request).1 = none ∧
      (mc.GetSingleMetricSeriesCollectionByQuery rt request).2 ≠ none := by
    intro hno
    match hr : metricData.Result with
    | [] => simp [GetSingle_of_nil rt mc request metricData h hr]
    | [c] =>
      have hc : c.Data = [] := by
        by_contra hne
        exact hno ⟨c, hr, List.length_pos.mpr hne⟩
      simp [GetSingle_of_single_empty rt mc request metricData c h hr hc]
    | c :: d :: rest =>
      have hlen : 1 < metricData.Result.length := by simp [hr]
      simp [GetSingle_of_many rt mc request metricData h hlen]
  refine ⟨⟨?_, ?_⟩, hgood, hbad⟩
  · rintro ⟨c, hc⟩
    by_contra hno
    have := (hbad hno).2
    simp [hc] at this
  · rintro ⟨c, hr, hc⟩
    exact ⟨c, hgood c hr hc⟩

/-- C2: when the client's `Get` or the decoding fails with cause `c`, the call returns a
nil collection and a `MetricsQueryFailedError` whose `Unwrap()` is `c` and whose
`Error()` is "error querying Metrics API v2: " followed by the text of `c`; when both
succeed, the returned error is not a `MetricsQueryFailedError`. -/
theorem GetSingleMetricSeriesCollectionByQuery_query_failed (rt : Runtime)
    (mc : MetricsClient) (request : MetricsClientQueryRequest)
    (hWait : rt.Wait request.timeframe MetricsRequiredDelay MetricsMaximumWait = none) :
    (∀ c : GoError,
        (mc.client.Get (request.RequestString rt.encode) = .error c ∨
          ∃ body, mc.client.Get (request.RequestString rt.encode) = .ok body ∧
            rt.Unmarshal body = .error c) →
        mc.GetSingleMetricSeriesCollectionByQuery rt request
            = (none, some (.MetricsQueryFailedError c)) ∧
          (GoError.MetricsQueryFailedError c).Unwrap = some c ∧
          (GoError.MetricsQueryFailedError c).Error
            = "error querying Metrics API v2: " ++ c.Error) ∧
    (∀ body metricData,
        mc.client.Get (request.RequestString rt.encode) = .ok body →
        rt.Unmarshal body = .ok metricData →
        ∀ e, (mc.GetSingleMetricSeriesCollectionByQuery rt request).2 = some e →
          e.isMetricsQueryFailedError = false ∧ e.isMetricsQueryProcessingError = true) := by
  constructor
  · intro c hc
    refine ⟨?_, rfl, ?_⟩
    · apply GetSingle_of_failed
      rcases hc with hGet | ⟨body, hGet, hDecode⟩
      · simp [MetricsClient.getMetricDataByQuery, hWait, hGet]
      · simp [MetricsClient.getMetricDataByQuery, hWait, hGet, hDecode]
    · simp [GoError.Error]
  · intro body metricData hGet hDecode e he
    have h := getMetricDataByQuery_decoded rt mc request body metricData hWait hGet hDecode
    match hr : metricData.Result with
    | [] =>
      rw [GetSingle_of_nil rt mc request metricData h hr] at he
      cases he
      exact ⟨rfl, rfl⟩
    | [c] =>
      by_cases hc : c.Data = []
      · rw [GetSingle_of_single_empty rt mc request metricData c h hr hc] at he
        cases he
        exact ⟨rfl, rfl⟩
      · rw [GetSingle_of_single_nonempty rt mc request metricData c h hr hc] at he
        cases he
    | c :: d :: rest =>
      have hlen : 1 < metricData.Result.length := by simp [hr]
      rw [GetSingle_of_many rt mc request metricData h hlen] at he
      cases he
      exact ⟨rfl, rfl⟩

/-- C3, as amended: when the timeframe delay fails with `e`, `getMetricDataByQuery`
returns `e` itself, and `GetSingleMetricSeriesCollectionByQuery` returns a nil collection
with a `MetricsQueryFailedError` that wraps `e`: the returned error is not `e`, its
`Unwrap()` is `e`, and its text is the query-failure text followed by the text of `e`. -/
theorem GetSingleMetricSeriesCollectionByQuery_wait_failed (rt : Runtime)
    (mc : MetricsClient) (request : MetricsClientQueryRequest) (e : GoError)
    (hWait : rt.Wait request.timeframe MetricsRequiredDelay MetricsMaximumWait = some e) :
    mc.getMetricDataByQuery rt request = (none, some e) ∧
    mc.GetSingleMetricSeriesCollectionByQuery rt request
      = (none, some (.MetricsQueryFailedError e)) ∧
    (mc.GetSingleMetricSeriesCollectionByQuery rt request).2 ≠ some e ∧
    (GoError.MetricsQueryFailedError e).Unwrap = some e ∧
    (GoError.MetricsQueryFailedError e).Error = "error querying Metrics API v2: " ++ e.Error := by
  have h : mc.getMetricDataByQuery rt request = (none, some e) := by
    simp [MetricsClient.getMetricDataByQuery, hWait]
  have h2 := GetSingle_of_failed rt mc request e h
  refine ⟨h, h2, ?_, rfl, ?_⟩
  · rw [h2]
    simpa using GoError.MetricsQueryFailedError_ne e
  · simp [GoError.Error]

/-- C4: on a decoded response with N > 1 collections the call returns a nil collection
and a `MetricsQueryProcessingError` whose message is
"Metrics API v2 returned N metric series collections", N in decimal, without warnings. -/
theorem GetSingleMetricSeriesCollectionByQuery_many_collections (rt : Runtime)
    (mc : MetricsClient) (request : MetricsClientQueryRequest) (body : String)
    (metricData : MetricData)
    (hWait : rt.Wait request.timeframe MetricsRequiredDelay MetricsMaximumWait = none)
    (hGet : mc.client.Get (request.RequestString rt.encode) = .ok body)
    (hDecode : rt.Unmarshal body = .ok metricData)
    (hMany : 1 < metricData.Result.length) :
    mc.GetSingleMetricSeriesCollectionByQuery rt request
      = (none, some (.MetricsQueryProcessingError
          ("Metrics API v2 returned " ++ Nat.repr metricData.Result.length
            ++ " metric series collections") [])) ∧
    (GoError.MetricsQueryProcessingError
          ("Metrics API v2 returned " ++ Nat.repr metricData.Result.length
            ++ " metric series collections") []).Error
      = "Metrics API v2 returned " ++ Nat.repr metricData.Result.length
            ++ " metric series collections" := by
  have h := getMetricDataByQuery_decoded rt mc request body metricData hWait hGet hDecode
  refine ⟨?_, ?_⟩
  · rw [GetSingle_of_many rt mc request metricData h hMany]
    rfl
  · simp [GoError.Error]

/-- C5: on a decoded response with one collection without series the call returns a nil
collection and a `MetricsQueryProcessingError` carrying the warnings of that collection,
in order; when there are warnings, its text is the message, ". Warnings: " and the
warnings joined by ", ". -/
theorem GetSingleMetricSeriesCollectionByQuery_zero_series (rt : Runtime)
    (mc : MetricsClient) (request : MetricsClientQueryRequest) (body : String)
    (metricData : MetricData) (c : MetricSeriesCollection)
    (hWait : rt.Wait request.timeframe MetricsRequiredDelay MetricsMaximumWait = none)
    (hGet : mc.client.Get (request.RequestString rt.encode) = .ok body)
    (hDecode : rt.Unmarshal body = .ok metricData)
    (hOne : metricData.Result = [c]) (hZero : c.Data.length = 0) :
    mc.GetSingleMetricSeriesCollectionByQuery rt request
      = (none, some (.MetricsQueryProcessingError
          "Metrics API v2 returned zero metric series" c.Warnings)) ∧
    (c.Warnings ≠ [] →
      (GoError.MetricsQueryProcessingError
          "Metrics API v2 returned zero metric series" c.Warnings).Error
        = "Metrics API v2 returned zero metric series" ++ ". Warnings: "
            ++ ", ".intercalate c.Warnings) := by
  have h := getMetricDataByQuery_decoded rt mc request body metricData hWait hGet hDecode
  have hc : c.Data = [] := List.length_eq_zero.mp hZero
  refine ⟨GetSingle_of_single_empty rt mc request metricData c h hOne hc, ?_⟩
  intro hw
  have hpos : 0 < c.Warnings.length := List.length_pos.mpr hw
  simp [GoError.Error, stringsJoin, hpos]

/-- C6, as amended: on a decoded response with a single collection, the call fails with a
`MetricsQueryProcessingError` exactly when that collection has no series; a collection
with more than one series is returned unchanged with a nil error. -/
theorem GetSingleMetricSeriesCollectionByQuery_several_series (rt : Runtime)
    (mc : MetricsClient) (request : MetricsClientQueryRequest) (body : String)
    (metricData : MetricData) (c : MetricSeriesCollection)
    (hWait : rt.Wait request.timeframe MetricsRequiredDelay MetricsMaximumWait = none)
    (hGet : mc.client.Get (request.RequestString rt.encode) = .ok body)
    (hDecode : rt.Unmarshal body = .ok metricData)
    (hOne : metricData.Result = [c]) :
    (1 < c.Data.length →
      mc.GetSingleMetricSeriesCollectionByQuery rt request = (some c, none)) ∧
    ((∃ e, (mc.GetSingleMetricSeriesCollectionByQuery rt request).2 = some e)
      ↔ c.Data.length = 0) := by
  have h := getMetricDataByQuery_decoded rt mc request body metricData hWait hGet hDecode
  by_cases hc : c.Data = []
  · have h2 := GetSingle_of_single_empty rt mc request metricData c h hOne hc
    simp [h2, hc]
  · have h2 := GetSingle_of_single_nonempty rt mc request metricData c h hOne hc
    simp [h2, hc]

/-! ## Properties of the request string -/

/-- The parameters added by `RequestString`, spelled out. -/
theorem requestParameters_eq (q : MetricsClientQueryRequest) :
    q.requestParameters
      = [("metricSelector", q.query.GetMetricSelector),
         ("from", TimestampToUnixMillisecondsString q.timeframe.Start),
         ("to", TimestampToUnixMillisecondsString q.timeframe.End),
         ("resolution", q.query.GetResolution)]
        ++ (if q.query.GetEntitySelector ≠ "" then
              [("entitySelector", q.query.GetEntitySelector)] else [])
        ++ (if q.query.GetMZSelector ≠ "" then
              [("mzSelector", q.query.GetMZSelector)] else []) := by
  unfold MetricsClientQueryRequest.requestParameters
  simp only [newQueryParameters, queryParameters.add, metricSelectorKey, fromKey, toKey,
    resolutionKey, entitySelectorKey, mzSelectorKey]
  split_ifs <;> simp

/-- C7: `RequestString` is "/api/v2/metrics/query?" followed by the encoded parameters;
among the parameters added, the value under "from" is the decimal Unix-millisecond
count of `timeframe.Start()`, the value under "to" that of `timeframe.End()`, and the
value under "metricSelector" is the metric selector of the query. -/
theorem RequestString_parameters (encode : queryParameters → String)
    (q : MetricsClientQueryRequest) :
    q.RequestString encode = "/api/v2/metrics/query?" ++ encode q.requestParameters ∧
    (q.requestParameters.filter (fun kv => kv.1 = "from")).map Prod.snd
      = [toString (UnixMilli q.timeframe.Start)] ∧
    (q.requestParameters.filter (fun kv => kv.1 = "to")).map Prod.snd
      = [toString (UnixMilli q.timeframe.End)] ∧
    (q.requestParameters.filter (fun kv => kv.1 = "metricSelector")).map Prod.snd
      = [q.query.GetMetricSelector] := by
  refine ⟨rfl, ?_, ?_, ?_⟩ <;>
  · rw [requestParameters_eq]
    unfold TimestampToUnixMillisecondsString
    split_ifs <;> simp [List.filter]

/-- C8: the keys added by `RequestString` are metricSelector, from, to, resolution, then
entitySelector when the entity selector is not empty, then mzSelector when the
management-zone selector is not empty, in this order; so each optional key is present
exactly when its filter is not empty, and never with an empty value. -/
theorem RequestString_optional_filters (q : MetricsClientQueryRequest) :
    q.requestParameters.map Prod.fst
      = ["metricSelector", "from", "to", "resolution"]
        ++ (if q.query.GetEntitySelector ≠ "" then ["entitySelector"] else [])
        ++ (if q.query.GetMZSelector ≠ "" then ["mzSelector"] else []) ∧
    ("entitySelector" ∈ q.requestParameters.map Prod.fst ↔ q.query.GetEntitySelector ≠ "") ∧
    ("mzSelector" ∈ q.requestParameters.map Prod.fst ↔ q.query.GetMZSelector ≠ "") ∧
    ("entitySelector", "") ∉ q.requestParameters ∧
    ("mzSelector", "") ∉ q.requestParameters := by
  rw [requestParameters_eq]
  refine ⟨?_, ?_, ?_, ?_, ?_⟩ <;> split_ifs <;> simp_all <;>
    (intro h; exact absurd h.symm (by assumption))

/-! ## Properties of the timeframe delay -/

/-- C9: `Wait` returns at once and without error when `now ≥ End + D`; it fails with
`TimingExceeded` exactly when `End + D > now + M`; the metrics client uses a required
delay of two minutes and a maximum wait of four minutes, the first shorter than the
second, and its result depends on the delay only through the call with these values. -/
theorem TimeframeDelay_Wait_contract (T : Timeframe) (D M : Duration) (now : Time)
    (cancelAt : Option Time) :
    (now ≥ T.End + (D : Int) →
      (NewTimeframeDelay T D M).Wait now cancelAt = { err := none, returnedAt := now }) ∧
    (((NewTimeframeDelay T D M).Wait now cancelAt).err = some WaitError.TimingExceeded
      ↔ T.End + (D : Int) > now + (M : Int)) ∧
    MetricsRequiredDelay = 2 * 60 * 1000000000 ∧
    MetricsMaximumWait = 4 * 60 * 1000000000 ∧
    MetricsRequiredDelay < MetricsMaximumWait ∧
    (∀ (rt rt2 : Runtime) (mc : MetricsClient) (request : MetricsClientQueryRequest),
      rt2.Wait request.timeframe (2 * Minute) (4 * Minute)
        = rt.Wait request.timeframe (2 * Minute) (4 * Minute) →
      rt2.Unmarshal = rt.Unmarshal → rt2.encode = rt.encode →
      mc.getMetricDataByQuery rt2 request = mc.getMetricDataByQuery rt request) := by
  refine ⟨?_, ?_, by decide, by decide, by decide, ?_⟩
  · intro h
    have h0 : T.End + (D : Int) ≤ now := h
    have h1 : ¬ (T.End + (D : Int) > now + (M : Int)) := by
      have hM : (0 : Int) ≤ (M : Int) := Int.ofNat_nonneg M
      intro h2
      have h3 : T.End + (D : Int) > now + (M : Int) := h2
      linarith
    simp [TimeframeDelay.Wait, TimeframeDelay.readyAt, NewTimeframeDelay, h1, h]
  · simp only [TimeframeDelay.Wait, TimeframeDelay.readyAt, NewTimeframeDelay]
    split_ifs with h1 h2
    · simp [h1]
    · simp [h1]
    · cases cancelAt with
      | none => simp [h1]
      | some c =>
        simp only []
        split_ifs <;> simp [h1]
  · intro rt rt2 mc request hw hu he
    simp only [MetricsClient.getMetricDataByQuery, MetricsRequiredDelay, MetricsMaximumWait,
      hw, hu, he]

/-! ## Properties of dashboard-based SLI retrieval -/

/-- C10: an SLO tile without SLO IDs yields exactly one SLI result, failed and named after
the tile, between the results of the tiles before it and those of the tiles after it;
it adds no SLO definition, and no SLO definitions are produced when it is the only tile. -/
theorem retrieveFromDashboard_tile_without_slo_ids (b : DashboardBackend)
    (before after : List DashboardTile) (name : String) :
    (retrieveFromDashboard b (before ++ [DashboardTile.sloTile name []] ++ after)).results
      = (retrieveFromDashboard b before).results
        ++ [{ Metric := name, Value := none, Success := false, Message := noSLOIDsMessage }]
        ++ (retrieveFromDashboard b after).results ∧
    generatedSLOs (Resolve b (before ++ [DashboardTile.sloTile name []] ++ after))
      = generatedSLOs (Resolve b before) ++ generatedSLOs (Resolve b after) ∧
    (retrieveFromDashboard b [DashboardTile.sloTile name []]).results
      = [{ Metric := name, Value := none, Success := false, Message := noSLOIDsMessage }] ∧
    (retrieveFromDashboard b [DashboardTile.sloTile name []]).slos = none := by
  refine ⟨?_, ?_, ?_, ?_⟩
  · simp [retrieveFromDashboard, Resolve, List.flatMap_append, resolveTile,
      Resolution.toSLIResult]
  · simp [generatedSLOs, Resolve, List.flatMap_append, resolveTile, Resolution.slo,
      List.filterMap_append]
  · simp [retrieveFromDashboard, Resolve, resolveTile, Resolution.toSLIResult]
  · simp [retrieveFromDashboard, Resolve, resolveTile, generatedSLOs, Resolution.slo]

/-! ## The properties at concrete inputs -/

/-- C1 at a response with one collection holding one series: that collection is returned. -/
theorem GetSingleMetricSeriesCollectionByQuery_success_iff_witness :
    (sampleRuntime [oneSeriesCollection]).Wait sampleRequest.timeframe MetricsRequiredDelay
        MetricsMaximumWait = none ∧
    sampleClient.client.Get
        (sampleRequest.RequestString (sampleRuntime [oneSeriesCollection]).encode)
      = .ok "body" ∧
    sampleClient.GetSingleMetricSeriesCollectionByQuery (sampleRuntime [oneSeriesCollection])
        sampleRequest = (some oneSeriesCollection, none) :=
  ⟨rfl, rfl,
    (GetSingleMetricSeriesCollectionByQuery_success_iff (sampleRuntime [oneSeriesCollection])
      sampleClient sampleRequest "body" { Result := [oneSeriesCollection] } rfl rfl rfl).2.1
      oneSeriesCollection rfl (by decide)⟩

/-- C2 at a client whose `Get` fails: the failure comes back wrapped. -/
theorem GetSingleMetricSeriesCollectionByQuery_query_failed_witness :
    (stubRuntime none (.ok { Result := [] })).Wait sampleRequest.timeframe
        MetricsRequiredDelay MetricsMaximumWait = none ∧
    (stubClient (.error transportError)).client.Get
        (sampleRequest.RequestString (stubRuntime none (.ok { Result := [] })).encode)
      = .error transportError ∧
    (stubClient (.error transportError)).GetSingleMetricSeriesCollectionByQuery
        (stubRuntime none (.ok { Result := [] })) sampleRequest
      = (none, some (.MetricsQueryFailedError transportError)) ∧
    (GoError.MetricsQueryFailedError transportError).Unwrap = some transportError ∧
    (GoError.MetricsQueryFailedError transportError).Error
      = "error querying Metrics API v2: " ++ transportError.Error :=
  ⟨rfl, rfl,
    (GetSingleMetricSeriesCollectionByQuery_query_failed
      (stubRuntime none (.ok { Result := [] })) (stubClient (.error transportError))
      sampleRequest rfl).1 transportError (Or.inl rfl)⟩

/-- C3, as stated, fails: when the delay fails with the timing error, the error returned
by `GetSingleMetricSeriesCollectionByQuery` is a `MetricsQueryFailedError` around it,
not the timing error itself. -/
theorem GetSingleMetricSeriesCollectionByQuery_wait_failed_counterexample :
    (stubRuntime (some timingError) (.ok { Result := [] })).Wait sampleRequest.timeframe
        MetricsRequiredDelay MetricsMaximumWait = some timingError ∧
    (sampleClient.GetSingleMetricSeriesCollectionByQuery
        (stubRuntime (some timingError) (.ok { Result := [] })) sampleRequest).2
      = some (.MetricsQueryFailedError (.foreign "timing exceeded")) ∧
    (sampleClient.GetSingleMetricSeriesCollectionByQuery
        (stubRuntime (some timingError) (.ok { Result := [] })) sampleRequest).2
      ≠ some timingError := by
  refine ⟨rfl, rfl, ?_⟩
  decide

/-- C3, as amended, at a delay that fails with the timing error. -/
theorem GetSingleMetricSeriesCollectionByQuery_wait_failed_witness :
    (stubRuntime (some timingError) (.ok { Result := [] })).Wait sampleRequest.timeframe
        MetricsRequiredDelay MetricsMaximumWait = some timingError ∧
    sampleClient.getMetricDataByQuery
        (stubRuntime (some timingError) (.ok { Result := [] })) sampleRequest
      = (none, some timingError) ∧
    sampleClient.GetSingleMetricSeriesCollectionByQuery
        (stubRuntime (some timingError) (.ok { Result := [] })) sampleRequest
      = (none, some (.MetricsQueryFailedError timingError)) ∧
    (sampleClient.GetSingleMetricSeriesCollectionByQuery
        (stubRuntime (some timingError) (.ok { Result := [] })) sampleRequest).2
      ≠ some timingError ∧
    (GoError.MetricsQueryFailedError timingError).Unwrap = some timingError ∧
    (GoError.MetricsQueryFailedError timingError).Error
      = "error querying Metrics API v2: " ++ timingError.Error :=
  ⟨rfl,
    GetSingleMetricSeriesCollectionByQuery_wait_failed
      (stubRuntime (some timingError) (.ok { Result := [] })) sampleClient sampleRequest
      timingError rfl⟩

/-- C4 at a response with two collections. -/
theorem GetSingleMetricSeriesCollectionByQuery_many_collections_witness :
    1 < [oneSeriesCollection, twoSeriesCollection].length ∧
    sampleClient.GetSingleMetricSeriesCollectionByQuery
        (sampleRuntime [oneSeriesCollection, twoSeriesCollection]) sampleRequest
      = (none, some (.MetricsQueryProcessingError
          "Metrics API v2 returned 2 metric series collections" [])) :=
  ⟨by decide,
    (GetSingleMetricSeriesCollectionByQuery_many_collections
      (sampleRuntime [oneSeriesCollection, twoSeriesCollection]) sampleClient sampleRequest
      "body" { Result := [oneSeriesCollection, twoSeriesCollection] } rfl rfl rfl
      (by decide)).1⟩

/-- C5 at a response with one collection without series and with two warnings. -/
theorem GetSingleMetricSeriesCollectionByQuery_zero_series_witness :
    noSeriesCollection.Data.length = 0 ∧
    sampleClient.GetSingleMetricSeriesCollectionByQuery
        (sampleRuntime [noSeriesCollection]) sampleRequest
      = (none, some (.MetricsQueryProcessingError
          "Metrics API v2 returned zero metric series"
          ["first warning", "second warning"])) ∧
    (GoError.MetricsQueryProcessingError "Metrics API v2 returned zero metric series"
        ["first warning", "second warning"]).Error
      = "Metrics API v2 returned zero metric series. Warnings: first warning, second warning" :=
  ⟨rfl,
    (GetSingleMetricSeriesCollectionByQuery_zero_series (sampleRuntime [noSeriesCollection])
      sampleClient sampleRequest "body" { Result := [noSeriesCollection] }
      noSeriesCollection rfl rfl rfl rfl rfl).1,
    by decide⟩

/-- C6, as stated, fails: a decoded response whose single collection holds two series is
returned with a nil error, not rejected with a processing error. -/
theorem GetSingleMetricSeriesCollectionByQuery_several_series_counterexample :
    (sampleRuntime [twoSeriesCollection]).Wait sampleRequest.timeframe MetricsRequiredDelay
        MetricsMaximumWait = none ∧
    twoSeriesCollection.Data.length = 2 ∧
    sampleClient.GetSingleMetricSeriesCollectionByQuery (sampleRuntime [twoSeriesCollection])
        sampleRequest = (some twoSeriesCollection, none) ∧
    ¬ ∃ e, (sampleClient.GetSingleMetricSeriesCollectionByQuery
        (sampleRuntime [twoSeriesCollection]) sampleRequest).2 = some e := by
  refine ⟨rfl, rfl, rfl, ?_⟩
  rintro ⟨e, he⟩
  cases he

/-- C6, as amended, at a response whose single collection holds two series. -/
theorem GetSingleMetricSeriesCollectionByQuery_several_series_witness :
    1 < twoSeriesCollection.Data.length ∧
    sampleClient.GetSingleMetricSeriesCollectionByQuery (sampleRuntime [twoSeriesCollection])
        sampleRequest = (some twoSeriesCollection, none) :=
  ⟨by decide,
    (GetSingleMetricSeriesCollectionByQuery_several_series (sampleRuntime [twoSeriesCollection])
      sampleClient sampleRequest "body" { Result := [twoSeriesCollection] }
      twoSeriesCollection rfl rfl rfl rfl).1 (by decide)⟩

/-- C9 at a call made two minutes and one second after the end of the timeframe. -/
theorem TimeframeDelay_Wait_contract_witness :
    ((1000000000 : Int) + ((2 * Minute : Nat) : Int) ≤ 121000000000) ∧
    (NewTimeframeDelay sampleTimeframe (2 * Minute) (4 * Minute)).Wait 121000000000 none
      = { err := none, returnedAt := 121000000000 } :=
  ⟨by decide,
    (TimeframeDelay_Wait_contract sampleTimeframe (2 * Minute) (4 * Minute) 121000000000
      none).1 (by decide)⟩

/-! ## Properties of dashboard retrieval -/

/-- C11: for every retrieval, `Retrieve` with an empty dashboard ID returns a nil dashboard
document, an empty dashboard ID and an error whose text contains "invalid 'dashboard'";
that error is not the not-found error, which is what an ID unknown to the backend
yields. -/
theorem Retrieve_empty_dashboard_id (r : Retrieval) :
    r.Retrieve "" = (none, "", some RetrieveError.InvalidDashboardReference) ∧
    (∃ front back : String,
      RetrieveError.InvalidDashboardReference.Error
        = front ++ "invalid 'dashboard'" ++ back) ∧
    (∀ dashboardID, (r.Retrieve "").2.2 ≠ some (RetrieveError.DashboardNotFound dashboardID)) ∧
    (∀ dashboardID, dashboardID ≠ "" → r.malformed dashboardID = false →
      r.getDashboard dashboardID = none →
      r.Retrieve dashboardID = (none, "", some (RetrieveError.DashboardNotFound dashboardID)) ∧
      (r.Retrieve dashboardID).2.2 ≠ (r.Retrieve "").2.2) := by
  have h : r.Retrieve "" = (none, "", some RetrieveError.InvalidDashboardReference) := by
    simp [Retrieval.Retrieve]
  refine ⟨h, ⟨"", " property: no dashboard ID", by decide⟩, ?_, ?_⟩
  · intro dashboardID
    simp [h]
  · intro dashboardID hne hwell hmissing
    have h2 : r.Retrieve dashboardID
        = (none, "", some (RetrieveError.DashboardNotFound dashboardID)) := by
      simp [Retrieval.Retrieve, hne, hwell, hmissing]
    refine ⟨h2, ?_⟩
    simp [h, h2]

/-! ## Properties of the monitoring configuration -/

/-- When the services of the first stage cannot be retrieved and that stage has a
remediation sequence, the loop over the stages ends with the error. -/
theorem collectMetricEvents_of_failure {ConfigResult : Type}
    (env : MonitoringEnvironment ConfigResult) (project : String) (stage : Stage)
    (rest : List Stage) (metricEvents : List ConfigResult) (err : GoError)
    (hStage : shouldCreateMetricEvents stage = true)
    (hFail : env.GetAllServices project stage.Name = .error err) :
    collectMetricEvents env project (stage :: rest) metricEvents
      = .error (.foreign ("failed to retrieve services of project " ++ project ++ ": "
          ++ err.Error)) := by
  simp [collectMetricEvents, hStage, hFail]

/-- When the services of every stage can be retrieved, the loop over the stages ends
with metric events, whatever the creation steps yield. -/
theorem collectMetricEvents_of_services {ConfigResult : Type}
    (env : MonitoringEnvironment ConfigResult) (project : String) (stages : List Stage)
    (hServices : ∀ stage ∈ stages, ∃ services,
      env.GetAllServices project stage.Name = .ok services) :
    ∀ metricEvents, ∃ collected,
      collectMetricEvents env project stages metricEvents = .ok collected := by
  induction stages with
  | nil =>
    intro metricEvents
    exact ⟨metricEvents, rfl⟩
  | cons stage rest ih =>
    intro metricEvents
    have hrest : ∀ s ∈ rest, ∃ services, env.GetAllServices project s.Name = .ok services :=
      fun s hs => hServices s (List.mem_cons_of_mem _ hs)
    obtain ⟨services, hs⟩ := hServices stage (List.mem_cons_self _ _)
    by_cases hStage : shouldCreateMetricEvents stage = true
    · simp only [collectMetricEvents, hStage, hs, if_true]
      exact ih hrest _
    · simp only [collectMetricEvents, hStage]
      exact ih hrest _

/-- For a non-empty project and a shipyard whose stages all have retrievable services,
`ConfigureMonitoring` returns configured entities and a nil error. -/
theorem ConfigureMonitoring_of_services {ConfigResult : Type}
    (env : MonitoringEnvironment ConfigResult) (project : String) (shipyard : Shipyard)
    (hProject : project ≠ "")
    (hServices : ∀ stage ∈ shipyard.Spec.Stages, ∃ services,
      env.GetAllServices project stage.Name = .ok services) :
    ∃ configuredEntities,
      ConfigureMonitoring env project (some shipyard) = (some configuredEntities, none) := by
  obtain ⟨collected, hc⟩ :=
    collectMetricEvents_of_services env project shipyard.Spec.Stages hServices []
  simp [ConfigureMonitoring, hProject, hc]

/-- For a non-empty project and a shipyard whose first stage has a remediation sequence
and services that cannot be retrieved, `ConfigureMonitoring` returns nil entities and
the retrieval error. -/
theorem ConfigureMonitoring_of_failure {ConfigResult : Type}
    (env : MonitoringEnvironment ConfigResult) (project : String) (shipyard : Shipyard)
    (stage : Stage) (rest : List Stage) (err : GoError)
    (hProject : project ≠ "")
    (hStages : shipyard.Spec.Stages = stage :: rest)
    (hStage : shouldCreateMetricEvents stage = true)
    (hFail : env.GetAllServices project stage.Name = .error err) :
    ConfigureMonitoring env project (some shipyard)
      = (none, some (.foreign ("failed to retrieve services of project " ++ project ++ ": "
          ++ err.Error))) := by
  have hc := collectMetricEvents_of_failure env project stage rest [] err hStage hFail
  simp [ConfigureMonitoring, hProject, hStages, hc]

/-- C12, on the code: for the project `sockshop` and a shipyard with the one stage
`production`, which has a remediation sequence, a failure to retrieve the services
of that stage makes `ConfigureMonitoring` return nil entities and a non-nil error,
although the tagging rules, the problem notification, the management zones and the
dashboard were created before. -/
theorem ConfigureMonitoring_services_failure :
    shouldCreateMetricEvents
      { Name := "production", Sequences := [{ Name := "remediation" }] } = true ∧
    failingServicesEnvironment.GetAllServices "sockshop" "production"
      = .error (.foreign "connection refused") ∧
    ConfigureMonitoring failingServicesEnvironment "sockshop" (some remediationShipyard)
      = (none, some (.foreign
          "failed to retrieve services of project sockshop: connection refused")) := by
  refine ⟨by decide, rfl, by decide⟩

/-- With the same project and shipyard, when the services are retrieved the entities are
returned with a nil error and hold the metric events of the service. -/
theorem ConfigureMonitoring_services_retrieved :
    (ConfigureMonitoring oneServiceEnvironment "sockshop" (some remediationShipyard)).2 = none ∧
    (ConfigureMonitoring oneServiceEnvironment "sockshop" (some remediationShipyard)).1.map
        (fun entities => entities.MetricEvents)
      = some ["metric event created for carts"] := by
  decide

/-! ## The retrieval property at a concrete input -/

/-- C11 at a retrieval whose backend has no dashboard: the empty ID is an invalid
reference, the ID of the retrieval test is not found. -/
theorem Retrieve_empty_dashboard_id_witness :
    emptyStoreRetrieval.Retrieve "" = (none, "", some RetrieveError.InvalidDashboardReference) ∧
    emptyStoreRetrieval.Retrieve "12345678-1111-4444-8888-123456789012"
      = (none, "", some (RetrieveError.DashboardNotFound
          "12345678-1111-4444-8888-123456789012")) :=
  ⟨(Retrieve_empty_dashboard_id emptyStoreRetrieval).1,
    ((Retrieve_empty_dashboard_id emptyStoreRetrieval).2.2.2
      "12345678-1111-4444-8888-123456789012" (by decide) rfl rfl).1⟩

end DynatraceService
